import Mathlib

/-!
# Verification of `scripts/migration.py` (go-gallery)

A shallow embedding of the legacy-CSV → document-store migration pipeline of
`scripts/migration.py`, together with theorems settling the specification
claims about it.

Modelling conventions:
* Python dicts become association lists (`List (String × _)`) with
  insert-or-overwrite semantics that preserve insertion order (`dictInsert`).
* The wall clock is a parameter `timeOf : Nat → String`: `timeOf n` is the
  textual value `str(time.time())` produced by the n-th clock read of the run;
  `datetime.utcnow()` values are represented by the constructor
  `PyDateTime.utcnow n` carrying the index of the clock read that produced
  them.  A counter (`tick`) threads the read index through the run in source
  order.
* The md5 hex digest is a parameter `hash : String → String` of every
  definition and theorem (its internals are irrelevant to all claims);
  `hashModel` is a concrete executable instance used for witnesses.
* `random.randint` results are a parameter `randOf : Nat → Nat` (the value of
  the n-th draw), with the documented range of `randint` appearing as a
  hypothesis where a claim needs it.
* The OpenSea HTTP GET is a parameter
  `api : String → String → ApiResult`: either a raised exception (timeout,
  connection error, JSON decode error) with its message, or a decoded JSON
  object modelled as an association list of string fields.  Every call is
  logged in `api_calls` so "no API call is made" is expressible.
* Uncaught exceptions are modelled with `Except` / `Option`; a `none` result
  of a whole stage models the run aborting.
* The concurrency of `ThreadPoolExecutor.map` is modelled by folding the
  per-row worker over the task list in completion order; the sequential
  in-dispatch-order fold is the most favourable schedule, and the claims that
  concern ordering already fail on it.
-/

namespace Migration

/-! ## Python primitives -/

/-- Python `str.lower()`, character-wise (ASCII, which covers the claims). -/
def pyLower (s : String) : String := ⟨s.data.map Char.toLower⟩

/-- Numeric value of a list of decimal digit characters. -/
def digitsVal (l : List Char) : Nat := l.foldl (fun a c => a * 10 + (c.toNat - 48)) 0

/-- Python `int(s)`: an optional sign followed by decimal digits; `none`
models the `ValueError` raised on any other shape (e.g. `int("")`,
`int("x")`). -/
def pyInt (s : String) : Option Int :=
  match s.data with
  | [] => none
  | '-' :: rest => if rest ≠ [] ∧ rest.all Char.isDigit then some (-(digitsVal rest : Int)) else none
  | l => if l.all Char.isDigit then some ((digitsVal l : Int)) else none

/-- Python `d[k] = v` on a dict: overwrite in place if the key exists
(keeping its position), otherwise append the new binding. -/
def dictInsert {V : Type} (k : String) (v : V) (d : List (String × V)) : List (String × V) :=
  if d.any (fun p => p.1 == k) then d.map (fun p => if p.1 == k then (k, v) else p)
  else d ++ [(k, v)]

/-- Python `d[k]` / `json[k]`: a `KeyError` carrying the key name when the
key is absent (Python renders it as the quoted key; the quote characters are
left out here). -/
def jsonGet (j : List (String × String)) (k : String) : Except String String :=
  match j.lookup k with
  | some v => Except.ok v
  | none => Except.error ("KeyError: " ++ k)

/-- Python `l[0]` on a list: `IndexError` when empty. -/
def listGet0 (l : List String) : Except String String :=
  match l with
  | [] => Except.error "list index out of range"
  | a :: _ => Except.ok a

/-! ## Identifiers, datetimes -/

/-- The function `create_id()` (migration.py:15-18): the md5 hex digest of
`str(time.time())`.  `tick` is the index of the clock read this call
performs.  The identifier depends on nothing but the clock. -/
def create_id (hash : String → String) (timeOf : Nat → String) (tick : Nat) : String :=
  hash (timeOf tick)

/-- A datetime value as the script can produce it: the result of the n-th
clock read (`datetime.datetime.utcnow()`), or the result of
`datetime.datetime.strptime(s, fmt)`. -/
inductive PyDateTime where
  | utcnow (tick : Nat)
  | strptime (s : String) (fmt : String)
  deriving Repr, DecidableEq

/-- The format string used for legacy creation dates (migration.py:155). -/
def timeFormat : String := "%Y-%m-%dT%H:%M:%S.%fZ"

/-! ## Output documents -/

structure UserDoc where
  version : Nat
  _id : String
  created_at : PyDateTime
  last_updated : PyDateTime
  deleted : Bool
  username : String
  username_idempotent : String
  addresses : List String
  deriving Repr, DecidableEq

structure NonceDoc where
  version : Nat
  _id : String
  created_at : PyDateTime
  last_updated : PyDateTime
  deleted : Bool
  user_id : String
  address : String
  value : String
  deriving Repr, DecidableEq

structure CollectionDoc where
  version : Nat
  _id : String
  creation_time : PyDateTime
  last_updated : PyDateTime
  deleted : Bool
  owner_user_id : String
  nfts : List String
  hidden : Bool
  deriving Repr, DecidableEq

structure GalleryDoc where
  version : Nat
  _id : String
  creation_time : PyDateTime
  last_updated : PyDateTime
  deleted : Bool
  owner_user_id : String
  collections : List String
  deriving Repr, DecidableEq

structure ContractDoc where
  contract_address : String
  deriving Repr, DecidableEq

/-- The nft document of migration.py:95-115.  JSON field values are kept as
strings (their runtime type plays no role in any claim). -/
structure NftDoc where
  version : Nat
  _id : String
  deleted : Bool
  name : String
  description : String
  external_url : String
  creator_address : String
  creator_name : String
  owner_address : String
  owner_user_id : String
  contract : ContractDoc
  opensea_id : String
  opensea_token_id : String
  image_url : String
  image_thumbnail_url : String
  image_preview_url : String
  image_original_url : String
  animation_url : String
  animation_original_url : String
  deriving Repr, DecidableEq

/-! ## CSV rows -/

/-- A row of the NFT csv as produced by
`csv.DictReader(nftsFile, restkey="rest", restval="")`: the header fields,
plus the overflow values stored under the `restkey` when the row is longer
than the header. -/
structure NftRow where
  fields : List (String × String)
  rest : Option (List String)
  deriving Repr, DecidableEq

/-- One data row under `csv.DictReader` with `restkey="rest"`, `restval=""`:
header names are zipped with the values, short rows are padded with the
`restval`, and surplus values land under the rest key. -/
def dictReadRow (header : List String) (vals : List String) : NftRow :=
  { fields := header.zip (vals ++ List.replicate (header.length - vals.length) "")
    rest := if header.length < vals.length then some (vals.drop header.length) else none }

/-- An entry of `errored_documents` (`{"doc": nft, "error": reason}`). -/
structure ErrDoc where
  doc : NftRow
  error : String
  deriving Repr, DecidableEq

/-- A row of the primary users csv (`glry-users.csv`).  The loop reads the
`username`, `wallet_address` and `id` columns; `created_at` is carried to
state that it is never read. -/
structure LegacyUserRow where
  id : String
  username : String
  wallet_address : String
  created_at : String
  deriving Repr, DecidableEq

/-- migration.py:128-132 — build `creation_dict` from `glry-users-old.csv`:
for every row having both a `created_at` and an `id` column,
`creation_dict[row["id"]] = row["created_at"]`. -/
def buildCreationDict (rows : List (List (String × String))) : List (String × String) :=
  rows.foldl
    (fun d row =>
      match row.lookup "created_at", row.lookup "id" with
      | some c, some i => dictInsert i c d
      | _, _ => d)
    []

/-! ## Stage 1: user ingestion (migration.py:135-204) -/

structure UserStageState where
  tick : Nat
  rtick : Nat
  user_documents : List UserDoc
  gallery_documents : List GalleryDoc
  nonce_documents : List NonceDoc
  user_dict : List (String × UserDoc)
  user_collection_dict : List (String × CollectionDoc)
  deriving Repr, DecidableEq

def initialUserState : UserStageState :=
  { tick := 0, rtick := 0, user_documents := [], gallery_documents := []
    nonce_documents := [], user_dict := [], user_collection_dict := [] }

/-- The user document literal of migration.py:142-156, with clock reads
numbered relative to the iteration base `t`: `user_id` is read `t`, the
literal's `created_at`/`last_updated` are reads `t+1`/`t+2`, and the
`created_at` overwrite from `creation_dict` (when the legacy id is present)
performs no clock read. -/
def mkUserDoc (hash : String → String) (timeOf : Nat → String)
    (creation_dict : List (String × String)) (t : Nat) (user : LegacyUserRow) : UserDoc :=
  { version := 0
    _id := create_id hash timeOf t
    created_at :=
      match creation_dict.lookup user.id with
      | some s => PyDateTime.strptime s timeFormat
      | none => PyDateTime.utcnow (t + 1)
    last_updated := PyDateTime.utcnow (t + 2)
    deleted := false
    username := user.username
    username_idempotent := pyLower user.username
    addresses := [pyLower user.wallet_address] }

/-- The nonce document literal of migration.py:158-167 (clock reads `t+3` to
`t+5`); `rand` is the result of the iteration's `random.randint` draw. -/
def mkNonceDoc (hash : String → String) (timeOf : Nat → String) (rand : Nat)
    (t : Nat) (user_id : String) (user : LegacyUserRow) : NonceDoc :=
  { version := 0
    _id := create_id hash timeOf (t + 3)
    created_at := PyDateTime.utcnow (t + 4)
    last_updated := PyDateTime.utcnow (t + 5)
    deleted := false
    user_id := user_id
    address := pyLower user.wallet_address
    value := Nat.repr rand }

/-- The default collection literal of migration.py:169-181 (clock reads
`t+6` to `t+8`). -/
def mkCollectionDoc (hash : String → String) (timeOf : Nat → String)
    (t : Nat) (user_id : String) : CollectionDoc :=
  { version := 0
    _id := create_id hash timeOf (t + 6)
    creation_time := PyDateTime.utcnow (t + 7)
    last_updated := PyDateTime.utcnow (t + 8)
    deleted := false
    owner_user_id := user_id
    nfts := []
    hidden := false }

/-- The gallery literal of migration.py:183-193 (clock reads `t+9` to
`t+11`). -/
def mkGalleryDoc (hash : String → String) (timeOf : Nat → String)
    (t : Nat) (user_id default_col_id : String) : GalleryDoc :=
  { version := 0
    _id := create_id hash timeOf (t + 9)
    creation_time := PyDateTime.utcnow (t + 10)
    last_updated := PyDateTime.utcnow (t + 11)
    deleted := false
    owner_user_id := user_id
    collections := [default_col_id] }

/-- One iteration of the user loop (migration.py:137-204): build the four
documents, append them to the output lists, and key both lookup dicts by the
row's legacy (supabase) id.  Twelve clock reads and one `randint` draw per
iteration. -/
def processUser (hash : String → String) (timeOf : Nat → String) (randOf : Nat → Nat)
    (creation_dict : List (String × String)) (st : UserStageState)
    (user : LegacyUserRow) : UserStageState :=
  let t := st.tick
  let user_document := mkUserDoc hash timeOf creation_dict t user
  let user_id := user_document._id
  let nonce_document := mkNonceDoc hash timeOf (randOf st.rtick) t user_id user
  let default_collection_document := mkCollectionDoc hash timeOf t user_id
  let gallery_document := mkGalleryDoc hash timeOf t user_id default_collection_document._id
  { tick := t + 12
    rtick := st.rtick + 1
    user_documents := st.user_documents ++ [user_document]
    gallery_documents := st.gallery_documents ++ [gallery_document]
    nonce_documents := st.nonce_documents ++ [nonce_document]
    user_dict := dictInsert user.id user_document st.user_dict
    user_collection_dict := dictInsert user.id default_collection_document st.user_collection_dict }

/-- The whole user-ingestion loop. -/
def userStage (hash : String → String) (timeOf : Nat → String) (randOf : Nat → Nat)
    (creation_dict : List (String × String)) (rows : List LegacyUserRow) : UserStageState :=
  rows.foldl (processUser hash timeOf randOf creation_dict) initialUserState

/-! ## Stage 2: NFT enrichment and ingestion (migration.py:56-125, 207-216) -/

/-- Outcome of `requests.get(...)` followed by `r.json()`: either an
exception (timeout, connection error, JSON decode error) with its message, or
the decoded JSON object, modelled as its string fields. -/
inductive ApiResult where
  | exn (msg : String)
  | json (asset : List (String × String))
  deriving Repr, DecidableEq

structure NftState where
  tick : Nat
  nft_documents : List NftDoc
  errored_documents : List ErrDoc
  user_collection_dict : List (String × CollectionDoc)
  api_calls : List (String × String)
  deriving Repr, DecidableEq

/-- The call `errored_documents.append` with the row and the reason. -/
def pushErr (st : NftState) (nft : NftRow) (e : String) : NftState :=
  { st with errored_documents := st.errored_documents ++ [⟨nft, e⟩] }

/-- The values read while evaluating the nft document literal of
migration.py:95-115. -/
structure NftFieldVals where
  name : String
  description : String
  external_url : String
  creator_address : String
  creator_name : String
  addr0 : String
  image_url : String
  image_thumbnail_url : String
  image_preview_url : String
  image_original_url : String
  animation_url : String
  animation_original_url : String
  deriving Repr, DecidableEq

/-- The field reads of the nft document literal, in source evaluation order;
the first failing read (a `KeyError` on the row or the asset, or an
`IndexError` on the user's address list) is the exception the surrounding
`try` catches. -/
def readNftFields (nft : NftRow) (user : UserDoc)
    (asset : List (String × String)) : Except String NftFieldVals := do
  let name ← jsonGet nft.fields "name"
  let description ← jsonGet nft.fields "description"
  let external_url ← jsonGet nft.fields "external_url"
  let creator_address ← jsonGet nft.fields "creator_address"
  let creator_name ← jsonGet nft.fields "creator_opensea_name"
  let addr0 ← listGet0 user.addresses
  let image_url ← jsonGet asset "image_url"
  let image_thumbnail_url ← jsonGet nft.fields "image_thumbnail_url"
  let image_preview_url ← jsonGet nft.fields "image_preview_url"
  let image_original_url ← jsonGet asset "image_original_url"
  let animation_url ← jsonGet asset "animation_url"
  let animation_original_url ← jsonGet asset "animation_original_url"
  pure
    { name := name, description := description, external_url := external_url
      creator_address := creator_address, creator_name := creator_name
      addr0 := addr0
      image_url := image_url
      image_thumbnail_url := image_thumbnail_url
      image_preview_url := image_preview_url
      image_original_url := image_original_url
      animation_url := animation_url
      animation_original_url := animation_original_url }

/-- The nft document of migration.py:94-115: the contract document (line 94),
then the literal assembled from the reads. -/
def buildNftDocument (nft : NftRow) (user : UserDoc) (asset : List (String × String))
    (ca tid oid nft_id : String) : Except String NftDoc :=
  (readNftFields nft user asset).map fun f =>
    { version := 0, _id := nft_id, deleted := false
      name := f.name, description := f.description, external_url := f.external_url
      creator_address := f.creator_address, creator_name := f.creator_name
      owner_address := pyLower f.addr0, owner_user_id := user._id
      contract := { contract_address := pyLower ca }
      opensea_id := oid, opensea_token_id := tid
      image_url := f.image_url
      image_thumbnail_url := f.image_thumbnail_url
      image_preview_url := f.image_preview_url
      image_original_url := f.image_original_url
      animation_url := f.animation_url
      animation_original_url := f.animation_original_url }

/-- The worker `create_nft` (migration.py:56-125).  The `print` of `nft["name"]` happens
before the `try`: on a row without a `name` key it raises, the exception is
stored in the executor future and never retrieved, so nothing at all is
recorded for the row.  Inside the `try`, any exception is caught and recorded
as an error document.  The append to the owner's default collection at line
123 is unconditional — the `hidden` column is never consulted. -/
def create_nft (hash : String → String) (timeOf : Nat → String)
    (user_dict : List (String × UserDoc)) (api : String → String → ApiResult)
    (st : NftState) (nft : NftRow) : NftState :=
  match nft.fields.lookup "name" with
  | none => st
  | some _ =>
    if nft.rest.isSome then pushErr st nft "bad format NFT"
    else
      match nft.fields.lookup "contract_address" with
      | none => pushErr st nft "KeyError: contract_address"
      | some ca =>
        if ca = "" then pushErr st nft "no contract address or token id"
        else
          match nft.fields.lookup "token_id" with
          | none => pushErr st nft "KeyError: token_id"
          | some tid =>
            if tid = "" then pushErr st nft "no contract address or token id"
            else
              match nft.fields.lookup "user_id" with
              | none => pushErr st nft "no user id"
              | some uid =>
                match user_dict.lookup uid with
                | none => pushErr st nft ("no supabase user for nft: " ++ uid)
                | some user =>
                  let st1 := { st with api_calls := st.api_calls ++ [(ca, tid)] }
                  match api ca tid with
                  | ApiResult.exn msg => pushErr st1 nft msg
                  | ApiResult.json asset =>
                    match asset.lookup "id" with
                    | none => pushErr st1 nft "no id in opensea asset"
                    | some oid =>
                      let nft_id := create_id hash timeOf st1.tick
                      let st2 := { st1 with tick := st1.tick + 1 }
                      match buildNftDocument nft user asset ca tid oid nft_id with
                      | Except.error msg => pushErr st2 nft msg
                      | Except.ok doc =>
                        let st3 :=
                          { st2 with nft_documents := st2.nft_documents ++ [doc] }
                        match st3.user_collection_dict.lookup uid with
                        | none => pushErr st3 nft ("KeyError: " ++ uid)
                        | some coll =>
                          { st3 with
                            user_collection_dict :=
                              dictInsert uid { coll with nfts := coll.nfts ++ [nft_id] }
                                st3.user_collection_dict }

/-- How `create_nft` classifies one row: `silent` — the `print` outside the
`try` raised and the executor swallowed it, nothing recorded; `failed e` —
the error `e` recorded, no document; `builtNoColl e` — the document recorded
and then the collection lookup raised `e`, also recorded;
`built uid` — the document recorded and its id appended to `uid`'s default
collection. -/
inductive RowClass where
  | silent
  | failed (e : String)
  | builtNoColl (e : String)
  | built (uid : String)
  deriving Repr, DecidableEq

/-- The per-row outcome of `create_nft` as a pure function of the row, the
user table, the enrichment API and the key set of the collection table — and
of nothing else.  `create_nft_classified` proves that this function governs
`create_nft`; that it does not depend on the accumulated outputs of other
rows is the formal content of per-row isolation. -/
def classifyRow (ud : List (String × UserDoc)) (api : String → String → ApiResult)
    (ucdKeys : List String) (nft : NftRow) : RowClass :=
  match nft.fields.lookup "name" with
  | none => RowClass.silent
  | some _ =>
    if nft.rest.isSome then RowClass.failed "bad format NFT"
    else
      match nft.fields.lookup "contract_address" with
      | none => RowClass.failed "KeyError: contract_address"
      | some ca =>
        if ca = "" then RowClass.failed "no contract address or token id"
        else
          match nft.fields.lookup "token_id" with
          | none => RowClass.failed "KeyError: token_id"
          | some tid =>
            if tid = "" then RowClass.failed "no contract address or token id"
            else
              match nft.fields.lookup "user_id" with
              | none => RowClass.failed "no user id"
              | some uid =>
                match ud.lookup uid with
                | none => RowClass.failed ("no supabase user for nft: " ++ uid)
                | some user =>
                  match api ca tid with
                  | ApiResult.exn msg => RowClass.failed msg
                  | ApiResult.json asset =>
                    match asset.lookup "id" with
                    | none => RowClass.failed "no id in opensea asset"
                    | some _ =>
                      match readNftFields nft user asset with
                      | Except.error msg => RowClass.failed msg
                      | Except.ok _ =>
                        if uid ∈ ucdKeys then RowClass.built uid
                        else RowClass.builtNoColl ("KeyError: " ++ uid)

/-- The error record a row contributes, by class. -/
def classErr : RowClass → Option String
  | RowClass.silent => none
  | RowClass.failed e => some e
  | RowClass.builtNoColl e => some e
  | RowClass.built _ => none

/-- Whether a row contributes an nft document, by class. -/
def classBuilt : RowClass → Bool
  | RowClass.silent => false
  | RowClass.failed _ => false
  | RowClass.builtNoColl _ => true
  | RowClass.built _ => true

/-- The sort key `int(row["position"])` of migration.py:213: `none` models the `KeyError` or
`ValueError` raised while `sorted` computes the key. -/
def posKey (r : NftRow) : Option Int := (r.fields.lookup "position").bind pyInt

/-- Comparison by integer position, total on rows whose key parses. -/
def posLe (a b : NftRow) : Prop := (posKey a).getD 0 ≤ (posKey b).getD 0

instance : DecidableRel posLe :=
  fun a b => (inferInstance : Decidable ((posKey a).getD 0 ≤ (posKey b).getD 0))

/-- The expression `sorted(reader, key=lambda row: int(row["position"]))` of
migration.py:213: a stable ascending sort by integer position; if any
row's key raises, `sorted` raises and the whole run aborts (`none`). -/
def sorted_nfts (rows : List NftRow) : Option (List NftRow) :=
  if rows.all (fun r => (posKey r).isSome) then some (List.insertionSort posLe rows)
  else none

/-- Folding the worker over the tasks in completion order
(migration.py:215-216). -/
def runNfts (hash : String → String) (timeOf : Nat → String)
    (user_dict : List (String × UserDoc)) (api : String → String → ApiResult)
    (rows : List NftRow) (st : NftState) : NftState :=
  rows.foldl (create_nft hash timeOf user_dict api) st

/-- The NFT stage: sort (aborting on an unparseable position), then process
every row.  The sequential in-order fold is the most favourable completion
schedule of the 5-worker pool. -/
def nftStage (hash : String → String) (timeOf : Nat → String)
    (user_dict : List (String × UserDoc)) (api : String → String → ApiResult)
    (rows : List NftRow) (st : NftState) : Option NftState :=
  (sorted_nfts rows).map (fun sorted => runNfts hash timeOf user_dict api sorted st)

/-! ## Stage 3 (aggregation) and the whole pipeline -/

/-- migration.py:219-220 — flatten `user_collection_dict` into
`collection_documents`. -/
def collectValues {V : Type} (d : List (String × V)) : List V := d.map Prod.snd

/-- Everything the run produces (the bulk inserts of migration.py:242-246
plus the error log and, for the model, the API call log). -/
structure MigOutput where
  user_documents : List UserDoc
  gallery_documents : List GalleryDoc
  nonce_documents : List NonceDoc
  nft_documents : List NftDoc
  collection_documents : List CollectionDoc
  errored_documents : List ErrDoc
  api_calls : List (String × String)
  deriving Repr, DecidableEq

/-- The full pipeline: build `creation_dict` from the old users csv, ingest
the users, then sort and process the NFT rows; `none` models an aborted
run. -/
def migrate (hash : String → String) (timeOf : Nat → String) (randOf : Nat → Nat)
    (oldRows : List (List (String × String))) (userRows : List LegacyUserRow)
    (api : String → String → ApiResult) (nftRows : List NftRow) : Option MigOutput :=
  let ust := userStage hash timeOf randOf (buildCreationDict oldRows) userRows
  let st0 : NftState :=
    { tick := ust.tick, nft_documents := [], errored_documents := []
      user_collection_dict := ust.user_collection_dict, api_calls := [] }
  (nftStage hash timeOf ust.user_dict api nftRows st0).map fun fin =>
    { user_documents := ust.user_documents
      gallery_documents := ust.gallery_documents
      nonce_documents := ust.nonce_documents
      nft_documents := fin.nft_documents
      collection_documents := collectValues fin.user_collection_dict
      errored_documents := fin.errored_documents
      api_calls := fin.api_calls }

/-! ## Concrete instances for witnesses and counterexamples -/

/-- A concrete stand-in for the md5 hex digest (a 32-bit rolling hash printed
in hex); every claim theorem that involves the digest quantifies over the
digest function, this instance only feeds witnesses. -/
def hashModel (s : String) : String :=
  List.asString (Nat.toDigits 16 (s.data.foldl (fun a c => (a * 131 + c.toNat) % 4294967296) 5381))

/-- A clock whose reads are all distinct. -/
def tickingClock (n : Nat) : String := "1700000000." ++ Nat.repr n

/-- A clock whose resolution is too coarse for the loop: every read returns
the same value, as consecutive `time.time()` calls can. -/
def frozenClock (_ : Nat) : String := "1700000000.125"

/-- A fixed admissible `randint` draw. -/
def randModel (_ : Nat) : Nat := 4588652893137813428

/-- An enrichment stub returning a complete asset for every request. -/
def apiModel (_ca _tid : String) : ApiResult :=
  ApiResult.json
    [("id", "9001"), ("image_url", "img"), ("image_original_url", "imgo"),
     ("animation_url", "anim"), ("animation_original_url", "animo")]

/-- The declared header of `glry-nfts.csv` (spec §6). -/
def stdHeader : List String :=
  ["user_id", "contract_address", "token_id", "name", "description", "external_url",
   "creator_address", "creator_opensea_name", "image_thumbnail_url", "image_preview_url",
   "position", "hidden"]

/-! ## Concrete inputs for the counterexamples and witnesses -/

def emptyNftState : NftState :=
  { tick := 0, nft_documents := [], errored_documents := []
    user_collection_dict := [], api_calls := [] }

def oldRowsC1 : List (List (String × String)) :=
  [[("id", "legacy-1"), ("created_at", "2021-03-04T05:06:07.000800Z")]]

def userRowC1 : LegacyUserRow := ⟨"legacy-1", "Alice", "0xAAA", "2020-01-01T00:00:00.000000Z"⟩

/-- A hidden legacy NFT row that passes validation and enrichment. -/
def nftRowC1 : NftRow :=
  dictReadRow stdHeader
    ["legacy-1", "0xCc", "7", "Piece", "a piece", "http://x", "0xCr", "creator",
     "thumb", "prev", "0", "true"]

def userRowC2 : LegacyUserRow := ⟨"legacy-2", "Bob", "0xBBB", "2020-01-02T00:00:00.000000Z"⟩

def nftRowC2a : NftRow :=
  dictReadRow stdHeader
    ["legacy-2", "0xD1", "1", "Visible", "d1", "u1", "c1", "n1", "t1", "p1", "0", "false"]

def nftRowC2b : NftRow :=
  dictReadRow stdHeader
    ["legacy-2", "0xD2", "2", "Hidden", "d2", "u2", "c2", "n2", "t2", "p2", "1", "true"]

def userRowC3 : LegacyUserRow := ⟨"legacy-3", "Carol", "0xCCC", "2020-01-03T00:00:00.000000Z"⟩

def userRowC4 : LegacyUserRow := ⟨"legacy-4", "Dana", "0xDDD", "2020-01-04T00:00:00.000000Z"⟩

def userRowC5 : LegacyUserRow := ⟨"legacy-5", "Erin", "0xEEE", "2020-01-05T00:00:00.000000Z"⟩

/-- A row with an empty contract address that also overflows the header. -/
def nftRowC5 : NftRow :=
  dictReadRow stdHeader
    ["legacy-5", "", "7", "P", "d", "e", "ca", "cn", "t", "p", "0", "false", "EXTRA"]

/-- A well-formed row with empty contract address and token id. -/
def nftRowC5w : NftRow :=
  dictReadRow stdHeader
    ["legacy-5w", "", "", "P", "d", "e", "ca", "cn", "t", "p", "0", "false"]

def userRowC6 : LegacyUserRow := ⟨"legacy-6", "Finn", "0xFFF", "2020-01-06T00:00:00.000000Z"⟩

def nftRowC6good : NftRow :=
  dictReadRow stdHeader
    ["legacy-6", "0xF1", "3", "Good", "d", "e", "ca", "cn", "t", "p", "5", "false"]

/-- A row whose `position` is not an integer. -/
def nftRowC6bad : NftRow :=
  dictReadRow stdHeader
    ["legacy-6", "0xF2", "4", "Bad", "d", "e", "ca", "cn", "t", "p", "oops", "false"]

/-- A data row one column longer than the declared header. -/
def valsC7 : List String :=
  ["legacy-7", "0xE", "9", "N", "d", "e", "ca", "cn", "t", "p", "4", "false", "spill"]

def nftRowC7 : NftRow := dictReadRow stdHeader valsC7

def userRowC8 : LegacyUserRow := ⟨"legacy-8", "Hugo", "0xHHH", "2020-01-08T00:00:00.000000Z"⟩

def userRowC9 : LegacyUserRow := ⟨"legacy-9", "Gail", "0xGGG", "2020-01-09T00:00:00.000000Z"⟩

def ustC9 : UserStageState := userStage hashModel tickingClock randModel [] [userRowC9]

def stC9 : NftState :=
  { tick := ustC9.tick, nft_documents := [], errored_documents := []
    user_collection_dict := ustC9.user_collection_dict, api_calls := [] }

def nftRowC9 : NftRow :=
  dictReadRow stdHeader
    ["legacy-9", "0xG1", "12", "Gem", "d", "e", "ca", "cn", "t", "p", "0", "false"]

def userRowC10 : LegacyUserRow := ⟨"legacy-10", "Iris", "0xIII", "2020-01-10T00:00:00.000000Z"⟩

/-! ## Helper lemmas -/

/-- A lookup succeeds exactly on the stored keys. -/
theorem lookup_isSome_iff_mem {V : Type} (d : List (String × V)) (k : String) :
    (d.lookup k).isSome ↔ k ∈ d.map Prod.fst := by
  induction d with
  | nil => simp
  | cons p t ih =>
    by_cases h : k = p.1
    · simp [List.lookup, h]
    · have hb : (k == p.1) = false := by simp [h]
      simp [List.lookup, hb, ih, h]

/-- `dictInsert` changes the key list only by appending a genuinely new
key. -/
theorem keys_dictInsert {V : Type} (k : String) (v : V) (d : List (String × V)) :
    (dictInsert k v d).map Prod.fst
      = if d.any (fun p => p.1 == k) then d.map Prod.fst else d.map Prod.fst ++ [k] := by
  unfold dictInsert
  split
  · next h =>
    simp only [List.map_map]
    congr 1
    funext p
    by_cases hp : p.1 == k
    · simp only [Function.comp, hp, if_pos]
      exact (eq_of_beq hp).symm
    · simp [Function.comp, hp]
  · simp

/-- The overwrite test of `dictInsert` is a key-membership test. -/
theorem any_key_iff_mem {V : Type} (d : List (String × V)) (k : String) :
    (d.any (fun p => p.1 == k)) = true ↔ k ∈ d.map Prod.fst := by
  simp [List.any_eq_true, beq_iff_eq]

/-- The overwrite test of `dictInsert` only depends on the key list. -/
theorem any_key_eq_keys_any {V : Type} (d : List (String × V)) (k : String) :
    d.any (fun p => p.1 == k) = (d.map Prod.fst).any (fun x => x == k) := by
  induction d with
  | nil => rfl
  | cons p t ih => simp [ih]

/-- Rows read with `restval` padding always carry every header key. -/
theorem lookup_zip_isSome_of_mem (k : String) :
    ∀ (hdr vals : List String), k ∈ hdr → hdr.length ≤ vals.length →
      ((hdr.zip vals).lookup k).isSome := by
  intro hdr
  induction hdr with
  | nil => simp
  | cons h t ih =>
    intro vals hk hlen
    cases vals with
    | nil => simp at hlen
    | cons v vs =>
      by_cases hkh : k = h
      · simp [List.lookup, hkh]
      · have hmem : k ∈ t := by
          rcases List.mem_cons.mp hk with h' | h'
          · exact absurd h' hkh
          · exact h'
        have hb : (k == h) = false := by simp [hkh]
        simp only [List.zip_cons_cons, List.lookup, hb]
        exact ih vs hmem (by simpa using Nat.le_of_succ_le_succ hlen)

/-- `create_nft` is governed by the pure per-row classification: the error
output, the collection key set, and whether a document is appended are all
read off `classifyRow`, which sees only the row, the user table, the API and
the collection key set. -/
theorem create_nft_classified (hash : String → String) (timeOf : Nat → String)
    (ud : List (String × UserDoc)) (api : String → String → ApiResult)
    (st : NftState) (nft : NftRow) :
    ((create_nft hash timeOf ud api st nft).errored_documents
        = st.errored_documents
          ++ ((classErr (classifyRow ud api (st.user_collection_dict.map Prod.fst) nft)).map
                (fun e => (⟨nft, e⟩ : ErrDoc))).toList)
    ∧ ((create_nft hash timeOf ud api st nft).user_collection_dict.map Prod.fst
        = st.user_collection_dict.map Prod.fst)
    ∧ (if classBuilt (classifyRow ud api (st.user_collection_dict.map Prod.fst) nft)
        then ∃ d, (create_nft hash timeOf ud api st nft).nft_documents
            = st.nft_documents ++ [d]
        else (create_nft hash timeOf ud api st nft).nft_documents = st.nft_documents) := by
  unfold create_nft classifyRow
  cases hname : nft.fields.lookup "name" with
  | none => simp [hname, classErr, classBuilt]
  | some nm =>
  by_cases hrest : nft.rest.isSome
  · simp [hname, hrest, pushErr, classErr, classBuilt]
  · cases hca : nft.fields.lookup "contract_address" with
    | none => simp [hname, hrest, hca, pushErr, classErr, classBuilt]
    | some ca =>
    by_cases hca0 : ca = ""
    · simp [hname, hrest, hca, hca0, pushErr, classErr, classBuilt]
    · cases htid : nft.fields.lookup "token_id" with
      | none => simp [hname, hrest, hca, hca0, htid, pushErr, classErr, classBuilt]
      | some tid =>
      by_cases htid0 : tid = ""
      · simp [hname, hrest, hca, hca0, htid, htid0, pushErr, classErr, classBuilt]
      · cases huid : nft.fields.lookup "user_id" with
        | none => simp [hname, hrest, hca, hca0, htid, htid0, huid, pushErr, classErr, classBuilt]
        | some uid =>
        cases hud : ud.lookup uid with
        | none =>
          simp [hname, hrest, hca, hca0, htid, htid0, huid, hud, pushErr, classErr, classBuilt]
        | some user =>
        cases hapi : api ca tid with
        | exn msg =>
          simp [hname, hrest, hca, hca0, htid, htid0, huid, hud, hapi, pushErr, classErr,
            classBuilt]
        | json asset =>
        cases hid : asset.lookup "id" with
        | none =>
          simp [hname, hrest, hca, hca0, htid, htid0, huid, hud, hapi, hid, pushErr, classErr,
            classBuilt]
        | some oid =>
        cases hrf : readNftFields nft user asset with
        | error msg =>
          simp [hname, hrest, hca, hca0, htid, htid0, huid, hud, hapi, hid, hrf,
            buildNftDocument, Except.map, pushErr, classErr, classBuilt]
        | ok f =>
          cases hluc : st.user_collection_dict.lookup uid with
          | none =>
            have hmem : uid ∉ st.user_collection_dict.map Prod.fst := by
              rw [← lookup_isSome_iff_mem]
              simp [hluc]
            simp [hname, hrest, hca, hca0, htid, htid0, huid, hud, hapi, hid, hrf,
              buildNftDocument, Except.map, hluc, hmem, pushErr, classErr, classBuilt]
          | some coll =>
            have hmem : uid ∈ st.user_collection_dict.map Prod.fst := by
              rw [← lookup_isSome_iff_mem]
              simp [hluc]
            have hkeys : ∀ c : CollectionDoc,
                (dictInsert uid c st.user_collection_dict).map Prod.fst
                  = st.user_collection_dict.map Prod.fst := by
              intro c
              rw [keys_dictInsert]
              rw [if_pos ((any_key_iff_mem _ _).mpr hmem)]
            simp [hname, hrest, hca, hca0, htid, htid0, huid, hud, hapi, hid, hrf,
              buildNftDocument, Except.map, hluc, hmem, pushErr, classErr, classBuilt, hkeys]

/-- Folding `create_nft` over a batch: every row contributes exactly the
error record and document count that its own classification dictates, and the
collection key set never changes. -/
theorem runNfts_isolated (hash : String → String) (timeOf : Nat → String)
    (ud : List (String × UserDoc)) (api : String → String → ApiResult) :
    ∀ (rows : List NftRow) (st : NftState),
      (runNfts hash timeOf ud api rows st).errored_documents
        = st.errored_documents
          ++ rows.filterMap (fun r =>
               (classErr (classifyRow ud api (st.user_collection_dict.map Prod.fst) r)).map
                 (fun e => (⟨r, e⟩ : ErrDoc)))
      ∧ (runNfts hash timeOf ud api rows st).nft_documents.length
        = st.nft_documents.length
          + rows.countP (fun r =>
              classBuilt (classifyRow ud api (st.user_collection_dict.map Prod.fst) r))
      ∧ (runNfts hash timeOf ud api rows st).user_collection_dict.map Prod.fst
        = st.user_collection_dict.map Prod.fst := by
  intro rows
  induction rows with
  | nil => intro st; simp [runNfts]
  | cons r rs ih =>
    intro st
    obtain ⟨e1, k1, n1⟩ := create_nft_classified hash timeOf ud api st r
    obtain ⟨E, N, K⟩ := ih (create_nft hash timeOf ud api st r)
    have hrun : runNfts hash timeOf ud api (r :: rs) st
        = runNfts hash timeOf ud api rs (create_nft hash timeOf ud api st r) := rfl
    refine ⟨?_, ?_, ?_⟩
    · rw [hrun, E, k1, e1]
      cases hcl : classErr (classifyRow ud api (st.user_collection_dict.map Prod.fst) r) with
      | none => simp [List.filterMap_cons, hcl]
      | some e => simp [List.filterMap_cons, hcl]
    · rw [hrun, N, k1]
      by_cases hb : classBuilt (classifyRow ud api (st.user_collection_dict.map Prod.fst) r)
      · rw [if_pos hb] at n1
        obtain ⟨d, hd⟩ := n1
        rw [hd]
        simp [List.countP_cons, hb]
        omega
      · rw [if_neg hb] at n1
        rw [n1]
        simp [List.countP_cons, hb]
    · rw [hrun, K, k1]

/-- When every user-table key is also a collection-table key, the
created-but-collection-lookup-failed class is unreachable. -/
theorem classifyRow_no_builtNoColl (ud : List (String × UserDoc))
    (api : String → String → ApiResult) (keys : List String) (nft : NftRow)
    (h : ∀ k, (ud.lookup k).isSome → k ∈ keys) :
    ∀ e, classifyRow ud api keys nft ≠ RowClass.builtNoColl e := by
  intro e
  unfold classifyRow
  cases hname : nft.fields.lookup "name" with
  | none => simp
  | some nm =>
  by_cases hrest : nft.rest.isSome
  · simp [hrest]
  · simp only [hrest, Bool.false_eq_true, if_false]
    cases hca : nft.fields.lookup "contract_address" with
    | none => simp
    | some ca =>
    by_cases hca0 : ca = ""
    · simp [hca0]
    · simp only [hca0, if_false]
      cases htid : nft.fields.lookup "token_id" with
      | none => simp
      | some tid =>
      by_cases htid0 : tid = ""
      · simp [htid0]
      · simp only [htid0, if_false]
        cases huid : nft.fields.lookup "user_id" with
        | none => simp
        | some uid =>
        cases hud : ud.lookup uid with
        | none => simp [hud]
        | some user =>
        cases hapi : api ca tid with
        | exn msg => simp [hud, hapi]
        | json asset =>
        cases hid : asset.lookup "id" with
        | none => simp [hud, hapi, hid]
        | some oid =>
        cases hrf : readNftFields nft user asset with
        | error msg => simp [hud, hapi, hid, hrf]
        | ok f =>
        by_cases hmem : uid ∈ keys
        · simp [hud, hapi, hid, hrf, hmem]
        · exact fun _ => absurd (h uid (by simp [hud])) hmem

/-- One loop iteration appends exactly one document to each output list. -/
theorem processUser_doc_lengths (hash : String → String) (timeOf : Nat → String)
    (randOf : Nat → Nat) (cdict : List (String × String)) (st : UserStageState)
    (row : LegacyUserRow) :
    (processUser hash timeOf randOf cdict st row).user_documents.length
        = st.user_documents.length + 1
    ∧ (processUser hash timeOf randOf cdict st row).nonce_documents.length
        = st.nonce_documents.length + 1
    ∧ (processUser hash timeOf randOf cdict st row).gallery_documents.length
        = st.gallery_documents.length + 1 := by
  refine ⟨?_, ?_, ?_⟩ <;> simp [processUser]

/-- The user loop grows each output list by one per row. -/
theorem foldl_processUser_lengths (hash : String → String) (timeOf : Nat → String)
    (randOf : Nat → Nat) (cdict : List (String × String)) (rows : List LegacyUserRow) :
    ∀ st : UserStageState,
      (rows.foldl (processUser hash timeOf randOf cdict) st).user_documents.length
          = st.user_documents.length + rows.length
      ∧ (rows.foldl (processUser hash timeOf randOf cdict) st).nonce_documents.length
          = st.nonce_documents.length + rows.length
      ∧ (rows.foldl (processUser hash timeOf randOf cdict) st).gallery_documents.length
          = st.gallery_documents.length + rows.length := by
  induction rows with
  | nil => intro st; simp
  | cons r rs ih =>
    intro st
    obtain ⟨h1, h2, h3⟩ := ih (processUser hash timeOf randOf cdict st r)
    obtain ⟨g1, g2, g3⟩ := processUser_doc_lengths hash timeOf randOf cdict st r
    refine ⟨?_, ?_, ?_⟩ <;>
      simp only [List.foldl_cons, h1, h2, h3, g1, g2, g3, List.length_cons] <;> omega

/-- Characters of a decimal representation are digits. -/
theorem digitChar_isDigit (m : Nat) (h : m < 10) : (Nat.digitChar m).isDigit := by
  interval_cases m <;> decide

/-- All characters `Nat.toDigitsCore` emits in base 10 are digits. -/
theorem toDigitsCore_all_digits (fuel n : Nat) (ds : List Char)
    (hds : ∀ c ∈ ds, c.isDigit) : ∀ c ∈ Nat.toDigitsCore 10 fuel n ds, c.isDigit := by
  induction fuel generalizing n ds with
  | zero => simpa [Nat.toDigitsCore] using hds
  | succ f ih =>
    simp only [Nat.toDigitsCore]
    have hcons : ∀ c ∈ Nat.digitChar (n % 10) :: ds, c.isDigit := by
      intro c hc
      rcases List.mem_cons.mp hc with h | h
      · subst h; exact digitChar_isDigit _ (Nat.mod_lt _ (by norm_num))
      · exact hds c h
    split
    · exact hcons
    · exact ih _ _ hcons

/-- With enough fuel, `Nat.toDigitsCore` emits exactly the decimal digits. -/
theorem toDigitsCore_len (fuel n : Nat) (ds : List Char) (hn : 0 < n)
    (hfuel : n < 10 ^ fuel) :
    (Nat.toDigitsCore 10 fuel n ds).length = (Nat.digits 10 n).length + ds.length := by
  induction fuel generalizing n ds with
  | zero => simp at hfuel; omega
  | succ f ih =>
    simp only [Nat.toDigitsCore]
    rw [Nat.digits_def' (by norm_num : (1:Nat) < 10) hn]
    split
    · next h10 =>
      have hnil : Nat.digits 10 (n / 10) = [] := by rw [h10]; simp
      simp [hnil]
      omega
    · next h10 =>
      have hpos : 0 < n / 10 := Nat.pos_of_ne_zero h10
      have hlt : n / 10 < 10 ^ f := by
        rw [Nat.div_lt_iff_lt_mul (by norm_num : (0:Nat) < 10)]
        calc n < 10 ^ (f + 1) := hfuel
          _ = 10 ^ f * 10 := by ring
      rw [ih _ _ hpos hlt]
      simp
      omega

/-- Every character of `str(n)` for a natural `n` is a decimal digit. -/
theorem repr_data_digits (n : Nat) : ∀ c ∈ (Nat.repr n).data, c.isDigit := by
  have h : (Nat.repr n).data = Nat.toDigitsCore 10 (n + 1) n [] := rfl
  rw [h]
  exact toDigitsCore_all_digits (n + 1) n [] (by simp)

/-- `str(n)` has exactly 19 characters on the `randint` range of the
script. -/
theorem repr_length_19 (n : Nat) (h1 : 1000000000000000000 ≤ n)
    (h2 : n ≤ 9999999999999999999) : (Nat.repr n).length = 19 := by
  have hpos : 0 < n := by omega
  have hfuel : n < 10 ^ (n + 1) := by
    calc n < 2 ^ n := Nat.lt_two_pow n
      _ ≤ 10 ^ n := Nat.pow_le_pow_left (by norm_num) n
      _ < 10 ^ (n + 1) := Nat.pow_lt_pow_right (by norm_num) (by omega)
  have hlen : (Nat.repr n).length = (Nat.toDigitsCore 10 (n + 1) n []).length := rfl
  rw [hlen, toDigitsCore_len (n + 1) n [] hpos hfuel]
  have hd : (Nat.digits 10 n).length = Nat.log 10 n + 1 :=
    Nat.digits_len 10 n (by norm_num) (by omega)
  have hlog : Nat.log 10 n = 18 := by
    apply Nat.log_eq_of_pow_le_of_lt_pow
    · norm_num
      omega
    · norm_num
      omega
  simp [hd, hlog]

/-! ## Claims -/

/-- C1: the spec says a hidden legacy NFT that passes validation and
enrichment is created as an NFT record whose id never appears in any
`Collection.nfts`.  The code (migration.py:123) appends every created NFT id
to the owner's default collection, never consulting the `hidden` column —
contradicting its own comment at lines 120-121.  On a concrete hidden row the
created NFT's id is exactly the content of the owner's collection. -/
theorem C1_hidden_nft_appended_to_collection :
    (migrate hashModel tickingClock randModel oldRowsC1 [userRowC1] apiModel [nftRowC1]).map
      (fun o =>
        decide (nftRowC1.fields.lookup "hidden" = some "true") &&
        decide (o.errored_documents = []) &&
        decide (o.nft_documents.length = 1) &&
        decide (o.collection_documents.map CollectionDoc.nfts = [o.nft_documents.map NftDoc._id]))
    = some true := by decide

/-- C2: the spec says each user's `Collection.nfts` holds exactly the ids of
that user's successfully-enriched non-hidden NFTs in position order.  Even
under the most favourable (sequential, dispatch-order) completion schedule,
a batch with one visible NFT (position 0) and one hidden NFT (position 1) for
the same user leaves both ids in the collection, where the claim requires
only the visible one. -/
theorem C2_hidden_nft_in_collection_nfts :
    (migrate hashModel tickingClock randModel [] [userRowC2] apiModel [nftRowC2b, nftRowC2a]).map
      (fun o =>
        (o.collection_documents.map (fun c => c.nfts.length),
         o.nft_documents.length, o.errored_documents.length))
    = some ([2], 2, 0) := by decide

/-- C3 (counterexample): two identifier generations in one run are not
always distinct — when consecutive clock reads return the same value (as
`time.time()` can within its resolution), the user id and the nonce id of the
same iteration coincide. -/
theorem C3_counterexample :
    ((userStage hashModel frozenClock randModel [] [userRowC3]).user_documents.map UserDoc._id
      = (userStage hashModel frozenClock randModel [] [userRowC3]).nonce_documents.map
          NonceDoc._id)
    ∧ (userStage hashModel frozenClock randModel [] [userRowC3]).user_documents.length = 1 := by
  decide

/-- C3 (amended): identifiers are content-independent — the ids produced by
an iteration of the user loop are the same whatever row is being processed,
for every digest function and clock — but they are deterministic digests of
the clock reading, so two generations that observe equal clock readings
produce equal identifiers rather than distinct random tokens. -/
theorem C3_ids_are_clock_digests :
    (∀ (hash : String → String) (timeOf : Nat → String) (randOf : Nat → Nat)
        (cdict : List (String × String)) (st : UserStageState) (r₁ r₂ : LegacyUserRow),
        (processUser hash timeOf randOf cdict st r₁).user_documents.map UserDoc._id
          = (processUser hash timeOf randOf cdict st r₂).user_documents.map UserDoc._id
        ∧ (processUser hash timeOf randOf cdict st r₁).nonce_documents.map NonceDoc._id
          = (processUser hash timeOf randOf cdict st r₂).nonce_documents.map NonceDoc._id
        ∧ (processUser hash timeOf randOf cdict st r₁).gallery_documents.map GalleryDoc._id
          = (processUser hash timeOf randOf cdict st r₂).gallery_documents.map GalleryDoc._id)
    ∧ (∀ (hash : String → String) (timeOf : Nat → String) (i j : Nat),
        timeOf i = timeOf j → create_id hash timeOf i = create_id hash timeOf j) := by
  constructor
  · intro hash timeOf randOf cdict st r₁ r₂
    refine ⟨?_, ?_, ?_⟩ <;> simp [processUser, mkUserDoc, mkNonceDoc, mkGalleryDoc]
  · intro hash timeOf i j h
    simp [create_id, h]

/-- C3 (witness): the collision half of the amended claim at a concrete
frozen clock. -/
theorem C3_ids_are_clock_digests_witness :
    create_id hashModel frozenClock 0 = create_id hashModel frozenClock 3 :=
  C3_ids_are_clock_digests.2 hashModel frozenClock 0 3 rfl

/-- C4: every legacy user row yields exactly one user, one nonce and one
gallery document (list lengths equal the row count), and per iteration the
four documents produced satisfy: the collection starts with an empty `nfts`
list and the gallery references exactly that collection's id. -/
theorem C4_one_of_each_per_user :
    ∀ (hash : String → String) (timeOf : Nat → String) (randOf : Nat → Nat)
      (cdict : List (String × String)),
      (∀ rows : List LegacyUserRow,
        (userStage hash timeOf randOf cdict rows).user_documents.length = rows.length
        ∧ (userStage hash timeOf randOf cdict rows).nonce_documents.length = rows.length
        ∧ (userStage hash timeOf randOf cdict rows).gallery_documents.length = rows.length)
    ∧ (∀ (st : UserStageState) (row : LegacyUserRow),
        ∃ (u : UserDoc) (n : NonceDoc) (c : CollectionDoc) (g : GalleryDoc),
          (processUser hash timeOf randOf cdict st row).user_documents
              = st.user_documents ++ [u]
          ∧ (processUser hash timeOf randOf cdict st row).nonce_documents
              = st.nonce_documents ++ [n]
          ∧ (processUser hash timeOf randOf cdict st row).gallery_documents
              = st.gallery_documents ++ [g]
          ∧ (processUser hash timeOf randOf cdict st row).user_collection_dict
              = dictInsert row.id c st.user_collection_dict
          ∧ c.nfts = []
          ∧ g.collections = [c._id]) := by
  intro hash timeOf randOf cdict
  constructor
  · intro rows
    have h := foldl_processUser_lengths hash timeOf randOf cdict rows initialUserState
    simpa [userStage, initialUserState] using h
  · intro st row
    exact ⟨mkUserDoc hash timeOf cdict st.tick row,
      mkNonceDoc hash timeOf (randOf st.rtick) st.tick
        (mkUserDoc hash timeOf cdict st.tick row)._id row,
      mkCollectionDoc hash timeOf st.tick (mkUserDoc hash timeOf cdict st.tick row)._id,
      mkGalleryDoc hash timeOf st.tick (mkUserDoc hash timeOf cdict st.tick row)._id
        (mkCollectionDoc hash timeOf st.tick (mkUserDoc hash timeOf cdict st.tick row)._id)._id,
      rfl, rfl, rfl, rfl, rfl, rfl⟩

/-- C4 (witness): the per-user production at a concrete run. -/
theorem C4_one_of_each_per_user_witness :
    ((userStage hashModel tickingClock randModel [] [userRowC4]).user_documents.length
        = [userRowC4].length
      ∧ (userStage hashModel tickingClock randModel [] [userRowC4]).nonce_documents.length
        = [userRowC4].length
      ∧ (userStage hashModel tickingClock randModel [] [userRowC4]).gallery_documents.length
        = [userRowC4].length)
    ∧ (∃ (u : UserDoc) (n : NonceDoc) (c : CollectionDoc) (g : GalleryDoc),
        (processUser hashModel tickingClock randModel [] initialUserState userRowC4).user_documents
            = initialUserState.user_documents ++ [u]
        ∧ (processUser hashModel tickingClock randModel [] initialUserState
              userRowC4).nonce_documents
            = initialUserState.nonce_documents ++ [n]
        ∧ (processUser hashModel tickingClock randModel [] initialUserState
              userRowC4).gallery_documents
            = initialUserState.gallery_documents ++ [g]
        ∧ (processUser hashModel tickingClock randModel [] initialUserState
              userRowC4).user_collection_dict
            = dictInsert userRowC4.id c initialUserState.user_collection_dict
        ∧ c.nfts = []
        ∧ g.collections = [c._id]) :=
  ⟨(C4_one_of_each_per_user hashModel tickingClock randModel []).1 [userRowC4],
   (C4_one_of_each_per_user hashModel tickingClock randModel []).2 initialUserState userRowC4⟩

/-- C5 (counterexample): a row with an empty contract address that also
overflows the declared header is recorded with reason `bad format NFT` — the
overflow check at migration.py:59 runs before the empty-field check at line
62, so the recorded reason does not identify the missing field. -/
theorem C5_counterexample :
    ((migrate hashModel tickingClock randModel [] [userRowC5] apiModel [nftRowC5]).map
        (fun o => (o.errored_documents.map ErrDoc.error, o.nft_documents.length, o.api_calls))
      = some (["bad format NFT"], 0, []))
    ∧ nftRowC5.fields.lookup "contract_address" = some "" := by decide

/-- C5 (amended): for a row that does not overflow the header, an empty
contract address or token id yields exactly one error record with reason
`no contract address or token id`, no NFT document, and — as the state is
otherwise untouched — no API call. -/
theorem C5_empty_fields_rejected_before_api_call :
    ∀ (hash : String → String) (timeOf : Nat → String) (ud : List (String × UserDoc))
      (api : String → String → ApiResult) (st : NftState) (row : NftRow)
      (nm ca tid : String),
      row.rest = none →
      row.fields.lookup "name" = some nm →
      row.fields.lookup "contract_address" = some ca →
      row.fields.lookup "token_id" = some tid →
      (ca = "" ∨ tid = "") →
      create_nft hash timeOf ud api st row
        = pushErr st row "no contract address or token id" := by
  intro hash timeOf ud api st row nm ca tid hrest hname hca htid hempty
  by_cases hca0 : ca = ""
  · simp [create_nft, hname, hrest, hca, hca0]
  · rcases hempty with h | h
    · exact absurd h hca0
    · simp [create_nft, hname, hrest, hca, htid, hca0, h]

/-- C5 (witness): the amended claim at a concrete well-formed row whose
contract address and token id are both empty. -/
theorem C5_empty_fields_rejected_before_api_call_witness :
    create_nft hashModel tickingClock [] apiModel emptyNftState nftRowC5w
      = pushErr emptyNftState nftRowC5w "no contract address or token id" :=
  C5_empty_fields_rejected_before_api_call hashModel tickingClock [] apiModel emptyNftState
    nftRowC5w "P" "" "" rfl rfl rfl rfl (Or.inl rfl)

/-- C6 (counterexample): a row whose `position` does not parse as an integer
makes `sorted` raise before any row is processed, aborting the whole batch —
the same batch without that row processes its other row successfully, so a
per-row failure did abort the batch. -/
theorem C6_counterexample :
    migrate hashModel tickingClock randModel [] [userRowC6] apiModel [nftRowC6good, nftRowC6bad]
      = none
    ∧ (migrate hashModel tickingClock randModel [] [userRowC6] apiModel [nftRowC6good]).map
        (fun o => (o.nft_documents.length, o.errored_documents.length)) = some (1, 0) := by
  decide

/-- C6 (amended): the batch survives the sort exactly when every position
parses; past the sort, each row's error record and document contribution is a
pure function of that row alone (with the fixed user table, API and
collection key set), so per-row validation and enrichment failures inside
`create_nft` are isolated and never affect any other row. -/
theorem C6_per_row_failures_isolated :
    (∀ rows : List NftRow,
        (sorted_nfts rows).isSome ↔ rows.all (fun r => (posKey r).isSome))
    ∧ (∀ (hash : String → String) (timeOf : Nat → String) (ud : List (String × UserDoc))
        (api : String → String → ApiResult) (rows : List NftRow) (st : NftState),
        (runNfts hash timeOf ud api rows st).errored_documents
          = st.errored_documents
            ++ rows.filterMap (fun r =>
                 (classErr (classifyRow ud api (st.user_collection_dict.map Prod.fst) r)).map
                   (fun e => (⟨r, e⟩ : ErrDoc)))
        ∧ (runNfts hash timeOf ud api rows st).nft_documents.length
          = st.nft_documents.length
            + rows.countP (fun r =>
                classBuilt (classifyRow ud api (st.user_collection_dict.map Prod.fst) r))) := by
  constructor
  · intro rows
    by_cases h : rows.all (fun r => (posKey r).isSome)
    · simp [sorted_nfts, h]
    · simp [sorted_nfts, h]
  · intro hash timeOf ud api rows st
    obtain ⟨E, N, K⟩ := runNfts_isolated hash timeOf ud api rows st
    exact ⟨E, N⟩

/-- C6 (witness): the amended claim at a concrete one-row batch. -/
theorem C6_per_row_failures_isolated_witness :
    ((sorted_nfts [nftRowC6bad]).isSome ↔ [nftRowC6bad].all (fun r => (posKey r).isSome))
    ∧ ((runNfts hashModel tickingClock [] apiModel [nftRowC6bad] emptyNftState).errored_documents
          = emptyNftState.errored_documents
            ++ [nftRowC6bad].filterMap (fun r =>
                 (classErr (classifyRow [] apiModel
                     (emptyNftState.user_collection_dict.map Prod.fst) r)).map
                   (fun e => (⟨r, e⟩ : ErrDoc)))
        ∧ (runNfts hashModel tickingClock [] apiModel [nftRowC6bad]
              emptyNftState).nft_documents.length
          = emptyNftState.nft_documents.length
            + [nftRowC6bad].countP (fun r =>
                classBuilt (classifyRow [] apiModel
                    (emptyNftState.user_collection_dict.map Prod.fst) r))) :=
  ⟨C6_per_row_failures_isolated.1 [nftRowC6bad],
   C6_per_row_failures_isolated.2 hashModel tickingClock [] apiModel [nftRowC6bad]
     emptyNftState⟩

/-- C7: rows longer than the declared header are detected — the reader sets
the rest key exactly on overflow, rows read with the declared header always
carry every header field (so the pre-try `print` cannot crash them), and
`create_nft` routes every rest-carrying row to the error path with reason
`bad format NFT`, producing no NFT document. -/
theorem C7_overflow_rows_rejected :
    (∀ (header vals : List String),
        (dictReadRow header vals).rest.isSome ↔ header.length < vals.length)
    ∧ (∀ (header vals : List String) (k : String), k ∈ header →
        (((dictReadRow header vals).fields).lookup k).isSome)
    ∧ (∀ (hash : String → String) (timeOf : Nat → String) (ud : List (String × UserDoc))
        (api : String → String → ApiResult) (st : NftState) (row : NftRow) (nm : String),
        row.fields.lookup "name" = some nm → row.rest.isSome →
        create_nft hash timeOf ud api st row = pushErr st row "bad format NFT") := by
  refine ⟨?_, ?_, ?_⟩
  · intro header vals
    simp only [dictReadRow]
    split <;> simp_all
  · intro header vals k hk
    exact lookup_zip_isSome_of_mem k header _ hk (by simp; omega)
  · intro hash timeOf ud api st row nm hname hrest
    simp [create_nft, hname, hrest]

/-- C7 (witness): a concrete 13-value row against the 12-column header. -/
theorem C7_overflow_rows_rejected_witness :
    ((dictReadRow stdHeader valsC7).rest.isSome ↔ stdHeader.length < valsC7.length)
    ∧ (((dictReadRow stdHeader valsC7).fields).lookup "name").isSome
    ∧ create_nft hashModel tickingClock [] apiModel emptyNftState nftRowC7
        = pushErr emptyNftState nftRowC7 "bad format NFT" :=
  ⟨C7_overflow_rows_rejected.1 stdHeader valsC7,
   C7_overflow_rows_rejected.2.1 stdHeader valsC7 "name" (by decide),
   C7_overflow_rows_rejected.2.2 hashModel tickingClock [] apiModel emptyNftState nftRowC7
     "N" rfl rfl⟩

/-- C8: each iteration's nonce value is `str(randint(10^18, 10^19 - 1))`;
whenever the draw lies in that (inclusive) range, the stored value is a
string of exactly 19 characters, all decimal digits. -/
theorem C8_nonce_value_19_digit_string :
    ∀ (hash : String → String) (timeOf : Nat → String) (randOf : Nat → Nat)
      (cdict : List (String × String)) (st : UserStageState) (row : LegacyUserRow),
      1000000000000000000 ≤ randOf st.rtick → randOf st.rtick ≤ 9999999999999999999 →
      ∃ n : NonceDoc,
        (processUser hash timeOf randOf cdict st row).nonce_documents
            = st.nonce_documents ++ [n]
        ∧ n.value = Nat.repr (randOf st.rtick)
        ∧ n.value.length = 19
        ∧ ∀ c ∈ n.value.data, c.isDigit := by
  intro hash timeOf randOf cdict st row h1 h2
  refine ⟨mkNonceDoc hash timeOf (randOf st.rtick) st.tick
    (mkUserDoc hash timeOf cdict st.tick row)._id row, rfl, rfl, ?_, ?_⟩
  · exact repr_length_19 _ h1 h2
  · exact repr_data_digits _

/-- C8 (witness): the nonce value at a concrete admissible draw. -/
theorem C8_nonce_value_19_digit_string_witness :
    ∃ n : NonceDoc,
      (processUser hashModel tickingClock randModel [] initialUserState
          userRowC8).nonce_documents
          = initialUserState.nonce_documents ++ [n]
      ∧ n.value = Nat.repr (randModel initialUserState.rtick)
      ∧ n.value.length = 19
      ∧ ∀ c ∈ n.value.data, c.isDigit :=
  C8_nonce_value_19_digit_string hashModel tickingClock randModel [] initialUserState userRowC8
    (by decide) (by decide)

/-- C9: after user ingestion the user table and the collection table hold
exactly the same keys (each legacy id is inserted into both in the same
iteration), and whenever every user-table key is a collection-table key, a
row whose document was appended never also records an error — the collection
lookup and append after the `user_dict` membership check cannot fail. -/
theorem C9_user_tables_key_aligned :
    (∀ (hash : String → String) (timeOf : Nat → String) (randOf : Nat → Nat)
        (cdict : List (String × String)) (rows : List LegacyUserRow),
        (userStage hash timeOf randOf cdict rows).user_dict.map Prod.fst
          = (userStage hash timeOf randOf cdict rows).user_collection_dict.map Prod.fst)
    ∧ (∀ (hash : String → String) (timeOf : Nat → String) (ud : List (String × UserDoc))
        (api : String → String → ApiResult) (st : NftState) (nft : NftRow),
        (∀ k, (ud.lookup k).isSome → k ∈ st.user_collection_dict.map Prod.fst) →
        (create_nft hash timeOf ud api st nft).nft_documents ≠ st.nft_documents →
        (create_nft hash timeOf ud api st nft).errored_documents = st.errored_documents) := by
  constructor
  · intro hash timeOf randOf cdict rows
    have go : ∀ (rows : List LegacyUserRow) (st : UserStageState),
        st.user_dict.map Prod.fst = st.user_collection_dict.map Prod.fst →
        (rows.foldl (processUser hash timeOf randOf cdict) st).user_dict.map Prod.fst
          = (rows.foldl (processUser hash timeOf randOf cdict) st).user_collection_dict.map
              Prod.fst := by
      intro rows
      induction rows with
      | nil => intro st h; simpa using h
      | cons r rs ih =>
        intro st h
        apply ih
        show (dictInsert r.id _ st.user_dict).map Prod.fst
            = (dictInsert r.id _ st.user_collection_dict).map Prod.fst
        rw [keys_dictInsert, keys_dictInsert, any_key_eq_keys_any, any_key_eq_keys_any, h]
    exact go rows initialUserState rfl
  · intro hash timeOf ud api st nft hkeys hchange
    obtain ⟨he, hk, hb⟩ := create_nft_classified hash timeOf ud api st nft
    by_cases hbuilt : classBuilt (classifyRow ud api (st.user_collection_dict.map Prod.fst) nft)
    · cases hc : classifyRow ud api (st.user_collection_dict.map Prod.fst) nft with
      | silent => rw [hc] at hbuilt; simp [classBuilt] at hbuilt
      | failed e => rw [hc] at hbuilt; simp [classBuilt] at hbuilt
      | builtNoColl e =>
        exact absurd hc (classifyRow_no_builtNoColl ud api _ nft hkeys e)
      | built u =>
        rw [hc] at he
        simpa [classErr] using he
    · rw [if_neg hbuilt] at hb
      exact absurd hb hchange

/-- C9 (witness): key alignment after a concrete one-user ingestion, and an
error-free append for a concrete enriched row of that user. -/
theorem C9_user_tables_key_aligned_witness :
    ((userStage hashModel tickingClock randModel [] [userRowC9]).user_dict.map Prod.fst
      = (userStage hashModel tickingClock randModel [] [userRowC9]).user_collection_dict.map
          Prod.fst)
    ∧ (create_nft hashModel tickingClock ustC9.user_dict apiModel stC9
          nftRowC9).errored_documents
        = stC9.errored_documents :=
  ⟨C9_user_tables_key_aligned.1 hashModel tickingClock randModel [] [userRowC9],
   C9_user_tables_key_aligned.2 hashModel tickingClock ustC9.user_dict apiModel stC9 nftRowC9
     (by
       intro k h
       rw [lookup_isSome_iff_mem] at h
       have h1 : ustC9.user_dict.map Prod.fst = ["legacy-9"] := rfl
       have h2 : stC9.user_collection_dict.map Prod.fst = ["legacy-9"] := rfl
       rw [h2]
       rw [h1] at h
       exact h)
     (by decide)⟩

/-- C10: a user document's `created_at` comes from `creation_dict` (built
from the separate `glry-users-old.csv`, keyed by the legacy id) parsed with
format `%Y-%m-%dT%H:%M:%S.%fZ` when the id is present, and is the run's
current UTC time otherwise — and it never depends on the `created_at` column
of the primary csv: rewriting that column leaves the iteration's entire
output unchanged. -/
theorem C10_created_at_from_old_export :
    ∀ (hash : String → String) (timeOf : Nat → String) (randOf : Nat → Nat)
      (cdict : List (String × String)) (st : UserStageState) (row : LegacyUserRow),
      (∃ u : UserDoc,
          (processUser hash timeOf randOf cdict st row).user_documents
              = st.user_documents ++ [u]
          ∧ u.created_at =
              (match cdict.lookup row.id with
               | some s => PyDateTime.strptime s timeFormat
               | none => PyDateTime.utcnow (st.tick + 1)))
      ∧ (∀ s' : String,
          processUser hash timeOf randOf cdict st { row with created_at := s' }
            = processUser hash timeOf randOf cdict st row) := by
  intro hash timeOf randOf cdict st row
  constructor
  · exact ⟨mkUserDoc hash timeOf cdict st.tick row, rfl, rfl⟩
  · intro s'
    rfl

/-- C10 (witness): a concrete row absent from the old export gets the run's
current time, and its `created_at` column is inert. -/
theorem C10_created_at_from_old_export_witness :
    (∃ u : UserDoc,
        (processUser hashModel tickingClock randModel [] initialUserState
            userRowC10).user_documents
            = initialUserState.user_documents ++ [u]
        ∧ u.created_at = PyDateTime.utcnow 1)
    ∧ (∀ s' : String,
        processUser hashModel tickingClock randModel [] initialUserState
            { userRowC10 with created_at := s' }
          = processUser hashModel tickingClock randModel [] initialUserState userRowC10) :=
  C10_created_at_from_old_export hashModel tickingClock randModel [] initialUserState userRowC10

end Migration
